import Mathlib

/-!
Verification of the codec-compare-gen JPEG XL codec adapter
(`src/codec_jpegxl.cc`) and the `Timer` primitive (`src/timer.h`).

The adapter drives the native libjxl encoder/decoder, which the spec treats
as a black box.  We embed the adapter's control flow faithfully and model
each native call's outcome as a field of an oracle structure that is
universally quantified in the theorems.  Diagnostic side-channel emission
(the `CHECK_OR_RETURN` macro of the missing `src/base.h`) is modelled from
the spec.  Memory allocation (`WP2::Data::Resize` / `WP2::ArgbBuffer::Resize`,
black-box libwebp2 calls) is modelled as infallible; the corresponding
`CHECK_OR_RETURN` conditions in the source carry empty diagnostics.
-/

/-- Subset of libwebp2 sample formats relevant to the adapter:
the two formats the JPEG XL adapter accepts plus two it rejects. -/
inductive WP2SampleFormat where
  | RGBA32
  | RGB24
  | Argb32
  | BGR24
deriving DecidableEq, Repr

/-- Bytes per pixel of a format (libwebp2 `WP2FormatBpp`, black box). -/
def WP2FormatBpp (f : WP2SampleFormat) : Nat :=
  match f with
  | .RGBA32 => 4
  | .RGB24 => 3
  | .Argb32 => 4
  | .BGR24 => 3

/-- Bits per channel of a format (libwebp2 `WP2Formatbpc`, black box). -/
def WP2Formatbpc (f : WP2SampleFormat) : Nat :=
  match f with
  | .RGBA32 => 8
  | .RGB24 => 8
  | .Argb32 => 8
  | .BGR24 => 8

/-- Whether a format has an alpha channel (libwebp2, black box). -/
def WP2FormatHasAlpha (f : WP2SampleFormat) : Bool :=
  match f with
  | .RGBA32 => true
  | .RGB24 => false
  | .Argb32 => true
  | .BGR24 => false

/-- Whether a format is alpha-premultiplied (libwebp2, black box). -/
def WP2IsPremultiplied (f : WP2SampleFormat) : Bool :=
  match f with
  | .Argb32 => true
  | _ => false

/-- The caller-owned pixel buffer (libwebp2 `WP2::ArgbBuffer` metadata:
width, height, stride in bytes, sample format).  Pixel bytes themselves are
opaque to the adapter: it only forwards a pointer and a byte count. -/
structure ArgbBuffer where
  format : WP2SampleFormat
  width : Nat
  height : Nat
  stride : Nat
deriving DecidableEq, Repr

/-- Codec settings of one task: quality (lossless sentinel or lossy level)
and effort (from `src/task.h`, mirrored by the spec's task descriptor). -/
structure CodecSettings where
  quality : Int
  effort : Int
deriving DecidableEq, Repr

/-- Task descriptor consumed by the adapter (from `src/task.h`):
codec settings plus the image path used only in diagnostics. -/
structure TaskInput where
  codec_settings : CodecSettings
  image_path : String
deriving DecidableEq, Repr

/-- Modelled from the spec: the lossless quality sentinel `kQualityLossless`
is declared in the missing `src/base.h`; the source comment in
`JpegXLLossyQualities` fixes its value: "[0:99] because 100 is lossless". -/
def kQualityLossless : Int := 100

/-- Modelled from the spec: the result type of the missing `src/base.h`.
Either a success payload or a failure diagnostic, mutually exclusive. -/
inductive StatusOr (T : Type) where
  | ok : T → StatusOr T
  | err : String → StatusOr T
deriving DecidableEq, Repr

/-- Outcome of running an adapter function: its `StatusOr` result, the
diagnostics emitted on the side channel (stderr), and the trace of calls
made into native libraries. -/
structure Outcome (ε T : Type) where
  result : StatusOr T
  log : List String
  trace : List ε
deriving DecidableEq, Repr

/-- Modelled from the spec: `CHECK_OR_RETURN(condition, quiet) << msg` of the
missing `src/base.h`.  A false condition returns a failure carrying the
diagnostic, which is also emitted to the side channel exactly when `quiet`
is false; a true condition continues with the rest of the function. -/
def Outcome.check {ε T : Type} (cond : Bool) (quiet : Bool) (msg : String)
    (k : Outcome ε T) : Outcome ε T :=
  if cond then k else ⟨StatusOr.err msg, if quiet then [] else [msg], []⟩

/-- Record one native-library call, then continue. -/
def Outcome.event {ε T : Type} (e : ε) (k : Outcome ε T) : Outcome ε T :=
  ⟨k.result, k.log, e :: k.trace⟩

/-- Record a batch of native-library calls, then continue. -/
def Outcome.events {ε T : Type} (es : List ε) (k : Outcome ε T) : Outcome ε T :=
  ⟨k.result, k.log, es ++ k.trace⟩

/-- Return a success payload. -/
def Outcome.done {ε T : Type} (t : T) : Outcome ε T :=
  ⟨StatusOr.ok t, [], []⟩

/-- The expected side-channel content of a non-quiet run: exactly the failure
diagnostic when the result is a failure, nothing on success. -/
def expectedLog {T : Type} (r : StatusOr T) : List String :=
  match r with
  | .ok _ => []
  | .err m => [m]

/-- A non-quiet run is log-faithful when its side channel holds exactly the
failure diagnostic on failure and nothing on success. -/
def logFaithful {ε T : Type} (out : Outcome ε T) : Prop :=
  out.log = expectedLog out.result

/-- `JpegXLVersion` (`src/codec_jpegxl.cc` lines 45-53): the backend version
string when compiled in (`v` models the `JxlEncoderVersion()` value),
"n/a" otherwise. -/
def JpegXLVersion (hasJpegXL : Bool) (v : Nat) : String :=
  if hasJpegXL then
    toString (v / 1000000) ++ "." ++ toString (v % 1000000 / 1000) ++ "."
      ++ toString (v % 1000)
  else "n/a"

/-- `JpegXLLossyQualities` (`src/codec_jpegxl.cc` lines 55-59): a vector of
100 ints filled by `std::iota` starting at 0, i.e. 0..99; 100 is lossless. -/
def JpegXLLossyQualities : List Int :=
  (List.range 100).map Int.ofNat

/-- `ArgbBufferSize` (`src/codec_jpegxl.cc` lines 79-83):
`(height - 1) * stride + width * WP2FormatBpp(format)`, with `height - 1`
computed in the `uint32_t` domain and the surrounding arithmetic in the
64-bit `size_t` domain, as in the source. -/
def ArgbBufferSize (image : ArgbBuffer) : Nat :=
  (((image.height + 4294967295) % 4294967296) * image.stride
    + image.width * WP2FormatBpp image.format) % 18446744073709551616

/-- The spec's image-buffer length invariant (spec section 3): a backing
buffer of `len` bytes is large enough when
`len ≥ (height - 1) * stride + width * bytes-per-pixel`. -/
def bufferLengthInvariant (image : ArgbBuffer) (len : Nat) : Prop :=
  (image.height - 1) * image.stride + image.width * WP2FormatBpp image.format ≤ len

/-- The libjxl `JxlBasicInfo` fields set by the adapter (black-box C struct,
`codestream_header.h`). -/
structure JxlBasicInfo where
  xsize : Nat
  ysize : Nat
  bits_per_sample : Nat
  uses_original_profile : Bool
  num_color_channels : Nat
  num_extra_channels : Nat
  alpha_bits : Nat
  alpha_premultiplied : Bool
deriving DecidableEq, Repr

/-- The basic info `EncodeJxl` assembles (`src/codec_jpegxl.cc` lines 98-114):
dimensions and bit depth from the image, `uses_original_profile` exactly when
the quality is the lossless sentinel, and the alpha fields filled only when
the format has alpha (`JxlEncoderInitBasicInfo` defaults otherwise). -/
def mkBasicInfo (image : ArgbBuffer) (quality : Int) : JxlBasicInfo :=
  { xsize := image.width,
    ysize := image.height,
    bits_per_sample := WP2Formatbpc image.format,
    uses_original_profile := quality == kQualityLossless,
    num_color_channels := 3,
    num_extra_channels := if WP2FormatHasAlpha image.format then 1 else 0,
    alpha_bits := if WP2FormatHasAlpha image.format then WP2Formatbpc image.format else 0,
    alpha_premultiplied :=
      if WP2FormatHasAlpha image.format then WP2IsPremultiplied image.format else false }

/-- The libjxl quality-to-distance mapping `JxlEncoderDistanceFromQuality`
(black-box native call, modelled over exact rationals instead of `float`). -/
def JxlEncoderDistanceFromQuality (quality : ℚ) : ℚ :=
  if 100 ≤ quality then 0
  else if 30 ≤ quality then 1 / 10 + (100 - quality) * (9 / 100)
  else 53 / 3000 * quality * quality - 23 / 20 * quality + 25

/-- Outcomes of the black-box libjxl encoder calls made by one `EncodeJxl`
run.  `JxlEncoderStatus` values: 0 success, 1 error, 2 need-more-output.
`payloadSize` is the total number of bytes the encoder writes through
`JxlEncoderProcessOutput`; `processFinalStatus` is the status it returns
once everything has been written. -/
structure JxlEncoderOracle where
  makeOk : Bool
  getError : Nat
  setBasicInfoStatus : Nat
  setColorEncodingStatus : Nat
  frameSettingsOk : Bool
  setFrameLosslessStatus : Nat
  setFrameDistanceStatus : Nat
  setOptionStatus : Nat
  addImageFrameStatus : Nat
  payloadSize : Nat
  processFinalStatus : Nat
deriving DecidableEq, Repr

/-- All encoder calls succeed (and the drained stream terminates with
`JXL_ENC_SUCCESS`). -/
def JxlEncoderOracle.allOk (o : JxlEncoderOracle) : Prop :=
  o.makeOk = true ∧ o.setBasicInfoStatus = 0 ∧ o.setColorEncodingStatus = 0 ∧
  o.frameSettingsOk = true ∧ o.setFrameLosslessStatus = 0 ∧
  o.setFrameDistanceStatus = 0 ∧ o.setOptionStatus = 0 ∧
  o.addImageFrameStatus = 0 ∧ o.processFinalStatus = 0

/-- Trace alphabet of native encoder calls. -/
inductive EncEv where
  | encoderMake
  | setBasicInfo (info : JxlBasicInfo)
  | setColorEncoding
  | frameSettingsCreate
  | setFrameLossless (v : Bool)
  | setFrameDistance (d : ℚ)
  | setOptionEffort (effort : Int)
  | addImageFrame (byteCount : Nat)
  | closeInput
  | processOutput (bufferSize : Nat)
deriving DecidableEq, Repr

/-- The output-drain loop of `EncodeJxl` (`src/codec_jpegxl.cc` lines
178-190).  State: the current buffer size (`data.size`) and the number of
bytes written so far (`next_out - data.bytes`).  Each
`JxlEncoderProcessOutput` call writes as much of the remaining `N - written`
bytes as fit in `avail_out = size - written` and reports
`JXL_ENC_NEED_MORE_OUTPUT` while bytes remain, upon which the buffer is
doubled (`data.Resize(data.size * 2, keep_bytes=true)`) and writing resumes
at the same offset; once everything is written it reports `finSt`.  Returns
the buffer size at each iteration, the final written count, and the final
status.  Fuel-based recursion; `N + 1` fuel is always sufficient. -/
def drainLoop (N finSt : Nat) : Nat → Nat → Nat → List Nat × Nat × Nat
  | 0, _, written => ([], written, finSt)
  | fuel + 1, size, written =>
    let w := written + min (size - written) (N - written)
    if w < N then
      let r := drainLoop N finSt fuel (size * 2) w
      (size :: r.1, r.2.1, r.2.2)
    else
      ([size], w, finSt)

/-- The drain loop as entered by `EncodeJxl`: the buffer starts at 64 bytes
(`data.Resize(64, keep_bytes=false)`) with nothing written yet. -/
def encodeDrain (N finSt : Nat) : List Nat × Nat × Nat :=
  drainLoop N finSt (N + 1) 64 0

/-- `EncodeJxl` (`src/codec_jpegxl.cc` lines 86-199).  Returns the final
byte count of the encoded `WP2::Data` buffer (its content is opaque encoder
output).  Faithful to the source's order of checks, native calls, the
quality branch, the drain loop, and the final truncation
`data.Resize(next_out - data.bytes, keep_bytes=true)` before the last
status check. -/
def EncodeJxl (o : JxlEncoderOracle) (input : TaskInput)
    (original_image : ArgbBuffer) (quiet : Bool) : Outcome EncEv Nat :=
  Outcome.check (original_image.format == WP2SampleFormat.RGBA32
      || original_image.format == WP2SampleFormat.RGB24) quiet
    "libjxl requires RGB(A)" <|
  Outcome.event EncEv.encoderMake <|
  Outcome.check o.makeOk quiet "JxlEncoderMake() failed" <|
  Outcome.event (EncEv.setBasicInfo
      (mkBasicInfo original_image input.codec_settings.quality)) <|
  Outcome.check (o.setBasicInfoStatus == 0) quiet
    ("JxlEncoderSetBasicInfo() failed with error code " ++ toString o.getError
      ++ " when encoding " ++ input.image_path) <|
  Outcome.event EncEv.setColorEncoding <|
  Outcome.check (o.setColorEncodingStatus == 0) quiet
    ("JxlEncoderSetColorEncoding() failed with error code "
      ++ toString o.getError ++ " when encoding " ++ input.image_path) <|
  Outcome.event EncEv.frameSettingsCreate <|
  Outcome.check o.frameSettingsOk quiet
    ("JxlEncoderFrameSettingsCreate() returned null when encoding "
      ++ input.image_path) <|
  let rest :=
    Outcome.event (EncEv.setOptionEffort input.codec_settings.effort) <|
    Outcome.check (o.setOptionStatus == 0) quiet
      ("JxlEncoderFrameSettingsSetOption(effort="
        ++ toString input.codec_settings.effort ++ ") failed with error code "
        ++ toString o.getError ++ " when encoding " ++ input.image_path) <|
    Outcome.event (EncEv.addImageFrame (ArgbBufferSize original_image)) <|
    Outcome.check (o.addImageFrameStatus == 0) quiet
      ("JxlEncoderAddImageFrame() failed with error code "
        ++ toString o.getError ++ " when encoding " ++ input.image_path) <|
    Outcome.event EncEv.closeInput <|
    Outcome.events
      ((encodeDrain o.payloadSize o.processFinalStatus).1.map EncEv.processOutput) <|
    Outcome.check ((encodeDrain o.payloadSize o.processFinalStatus).2.2 == 0) quiet
      ("JxlEncoderProcessOutput() failed with error code "
        ++ toString o.getError ++ " when encoding " ++ input.image_path) <|
    Outcome.done (encodeDrain o.payloadSize o.processFinalStatus).2.1
  if input.codec_settings.quality == kQualityLossless then
    Outcome.event (EncEv.setFrameLossless true) <|
    Outcome.check (o.setFrameLosslessStatus == 0) quiet
      ("JxlEncoderSetFrameLossless() failed with error code "
        ++ toString o.getError ++ " when encoding " ++ input.image_path) <|
    rest
  else
    Outcome.event (EncEv.setFrameDistance
        (JxlEncoderDistanceFromQuality (input.codec_settings.quality : ℚ))) <|
    Outcome.check (o.setFrameDistanceStatus == 0) quiet
      ("JxlEncoderSetFrameDistance() failed with error code "
        ++ toString o.getError ++ " when encoding " ++ input.image_path
        ++ " with distance "
        ++ toString (JxlEncoderDistanceFromQuality (input.codec_settings.quality : ℚ))
        ++ " (quality " ++ toString input.codec_settings.quality ++ ")") <|
    rest

/-- The capability-absent stub for `EncodeJxl` (`src/codec_jpegxl.cc` lines
265-268, compiled when `HAS_JPEGXL` is absent): `CHECK_OR_RETURN(false, quiet)`
with a fixed diagnostic, for every input. -/
def EncodeJxlNoBackend (_input : TaskInput) (_original_image : ArgbBuffer)
    (quiet : Bool) : Outcome EncEv Nat :=
  Outcome.check false quiet "Encoding images requires HAS_JPEGXL"
    (Outcome.done 0)

/-- The capability-absent stub for `DecodeJxl` (`src/codec_jpegxl.cc` lines
269-273). -/
def DecodeJxlNoBackend (_input : TaskInput) (_encodedSize : Nat)
    (quiet : Bool) : Outcome Unit (ArgbBuffer × ℚ) :=
  Outcome.check false quiet "Decoding images requires HAS_JPEGXL"
    (Outcome.done (⟨WP2SampleFormat.RGB24, 0, 0, 0⟩, 0))

/-- `Timer` (`src/timer.h` lines 22-33): construction captures the monotonic
clock instant; instants are modelled as exact rationals instead of the
`double`-valued `std::chrono` duration. -/
structure Timer where
  start : ℚ
deriving DecidableEq, Repr

/-- `Timer::seconds()`: the difference between the clock's current instant
and the instant captured at construction.  Pure: the `Timer` is `const`. -/
def Timer.seconds (t : Timer) (now : ℚ) : ℚ :=
  now - t.start

/-- The libjxl `JxlDecoderStatus` values the adapter checks against. -/
def JXL_DEC_SUCCESS : Nat := 0

/-- `JXL_DEC_ERROR` (value 1). -/
def JXL_DEC_ERROR : Nat := 1

/-- `JXL_DEC_NEED_IMAGE_OUT_BUFFER` (value 5). -/
def JXL_DEC_NEED_IMAGE_OUT_BUFFER : Nat := 5

/-- `JXL_DEC_BASIC_INFO` (value 0x40). -/
def JXL_DEC_BASIC_INFO : Nat := 64

/-- `JXL_DEC_FULL_IMAGE` (value 0x1000). -/
def JXL_DEC_FULL_IMAGE : Nat := 4096

/-- Outcomes of the black-box libjxl decoder calls made by one `DecodeJxl`
run.  `process1` .. `process4` are the events the four successive
`JxlDecoderProcessInput` calls return; `basicInfo` is what
`JxlDecoderGetBasicInfo` reports. -/
structure JxlDecoderOracle where
  makeOk : Bool
  subscribeStatus : Nat
  setInputStatus : Nat
  process1 : Nat
  getBasicInfoStatus : Nat
  basicInfo : JxlBasicInfo
  process2 : Nat
  setImageOutBufferStatus : Nat
  process3 : Nat
  process4 : Nat
deriving DecidableEq, Repr

/-- All decoder calls return exactly what the adapter expects at each step. -/
def JxlDecoderOracle.allOk (d : JxlDecoderOracle) : Prop :=
  d.makeOk = true ∧ d.subscribeStatus = JXL_DEC_SUCCESS ∧
  d.setInputStatus = JXL_DEC_SUCCESS ∧ d.process1 = JXL_DEC_BASIC_INFO ∧
  d.getBasicInfoStatus = JXL_DEC_SUCCESS ∧
  d.process2 = JXL_DEC_NEED_IMAGE_OUT_BUFFER ∧
  d.setImageOutBufferStatus = JXL_DEC_SUCCESS ∧
  d.process3 = JXL_DEC_FULL_IMAGE ∧ d.process4 = JXL_DEC_SUCCESS

/-- Trace alphabet of native decoder calls.  `processInput` records the
event value the call returned. -/
inductive DecEv where
  | decoderMake
  | subscribeEvents (eventMask : Nat)
  | setInput (byteCount : Nat)
  | closeInput
  | processInput (returned : Nat)
  | getBasicInfo
  | imageResize (xsize ysize : Nat)
  | setImageOutBuffer (byteCount : Nat)
deriving DecidableEq, Repr

/-- The destination image `DecodeJxl` allocates from the reported basic info
(`src/codec_jpegxl.cc` lines 235-238): `WP2_RGBA_32` exactly when
`info.alpha_bits > 0`, else `WP2_RGB_24`, resized to the reported
dimensions.  `WP2::ArgbBuffer::Resize` (black-box libwebp2) allocates with a
tight stride of `width * WP2FormatBpp(format)` bytes. -/
def decodeOutputImage (info : JxlBasicInfo) : ArgbBuffer :=
  let fmt := if 0 < info.alpha_bits then WP2SampleFormat.RGBA32
             else WP2SampleFormat.RGB24
  ⟨fmt, info.xsize, info.ysize, info.xsize * WP2FormatBpp fmt⟩

/-- `DecodeJxl` (`src/codec_jpegxl.cc` lines 201-262).  `encodedSize` models
`encoded_image.size`; `tColorStart` and `tColorRead` are the monotonic-clock
instants at which the `color_conversion_duration` timer is constructed
(after the third `JxlDecoderProcessInput` call) and read (after the fourth).
Faithful to the source's order of native calls and expected-event checks;
note the source labels the fourth `JxlDecoderProcessInput` diagnostic
"Third call". -/
def DecodeJxl (d : JxlDecoderOracle) (input : TaskInput) (encodedSize : Nat)
    (quiet : Bool) (tColorStart tColorRead : ℚ) :
    Outcome DecEv (ArgbBuffer × ℚ) :=
  Outcome.event DecEv.decoderMake <|
  Outcome.check d.makeOk quiet "JxlDecoderMake() failed" <|
  Outcome.event (DecEv.subscribeEvents (JXL_DEC_BASIC_INFO + JXL_DEC_FULL_IMAGE)) <|
  Outcome.check (d.subscribeStatus == JXL_DEC_SUCCESS) quiet
    ("JxlDecoderSubscribeEvents() failed with error code "
      ++ toString d.subscribeStatus ++ " when decoding " ++ input.image_path) <|
  Outcome.event (DecEv.setInput encodedSize) <|
  Outcome.check (d.setInputStatus == JXL_DEC_SUCCESS) quiet
    ("JxlDecoderSetInput() failed with error code " ++ toString d.setInputStatus
      ++ " when decoding " ++ input.image_path) <|
  Outcome.event DecEv.closeInput <|
  Outcome.event (DecEv.processInput d.process1) <|
  Outcome.check (d.process1 == JXL_DEC_BASIC_INFO) quiet
    ("First call to JxlDecoderProcessInput() unexpectedly returned "
      ++ toString d.process1 ++ " when decoding " ++ input.image_path) <|
  Outcome.event DecEv.getBasicInfo <|
  Outcome.check (d.getBasicInfoStatus == JXL_DEC_SUCCESS) quiet
    ("JxlDecoderGetBasicInfo() failed with error code "
      ++ toString d.getBasicInfoStatus ++ " when decoding " ++ input.image_path) <|
  Outcome.event (DecEv.processInput d.process2) <|
  Outcome.check (d.process2 == JXL_DEC_NEED_IMAGE_OUT_BUFFER) quiet
    ("Second call to JxlDecoderProcessInput() unexpectedly returned "
      ++ toString d.process2 ++ " when decoding " ++ input.image_path) <|
  Outcome.event (DecEv.imageResize d.basicInfo.xsize d.basicInfo.ysize) <|
  Outcome.event (DecEv.setImageOutBuffer
      (ArgbBufferSize (decodeOutputImage d.basicInfo))) <|
  Outcome.check (d.setImageOutBufferStatus == JXL_DEC_SUCCESS) quiet
    ("JxlDecoderSetImageOutBuffer() failed with error code "
      ++ toString d.setImageOutBufferStatus ++ " when decoding "
      ++ input.image_path) <|
  Outcome.event (DecEv.processInput d.process3) <|
  Outcome.check (d.process3 == JXL_DEC_FULL_IMAGE) quiet
    ("Third call to JxlDecoderProcessInput() unexpectedly returned "
      ++ toString d.process3 ++ " when decoding " ++ input.image_path) <|
  Outcome.event (DecEv.processInput d.process4) <|
  Outcome.check (d.process4 == JXL_DEC_SUCCESS) quiet
    ("Third call to JxlDecoderProcessInput() failed with error code "
      ++ toString d.process4 ++ " when decoding " ++ input.image_path) <|
  Outcome.done (decodeOutputImage d.basicInfo,
    Timer.seconds (Timer.mk tColorStart) tColorRead)

/-- Number of `JxlDecoderProcessInput` calls recorded in a decode trace. -/
def countProcessInput (t : List DecEv) : Nat :=
  t.countP (fun e => match e with | DecEv.processInput _ => true | _ => false)

/-- A supported 2 x 2 RGB image with a tight 6-byte stride. -/
def sampleImage : ArgbBuffer := ⟨WP2SampleFormat.RGB24, 2, 2, 6⟩

/-- An unsupported (premultiplied ARGB) 2 x 2 image. -/
def unsupportedImage : ArgbBuffer := ⟨WP2SampleFormat.Argb32, 2, 2, 8⟩

/-- A lossless-quality task at effort 7. -/
def sampleTask : TaskInput := ⟨⟨100, 7⟩, "photo.png"⟩

/-- A lossy-quality task at effort 7. -/
def sampleLossyTask : TaskInput := ⟨⟨88, 7⟩, "photo.png"⟩

/-- An encoder run in which every native call succeeds and the encoder
produces 200 bytes of output. -/
def sampleEncOracle : JxlEncoderOracle :=
  ⟨true, 0, 0, 0, true, 0, 0, 0, 0, 200, 0⟩

/-- A decoder run in which every step returns the expected event and the
stream holds an opaque 2 x 2 image. -/
def sampleDecOracle : JxlDecoderOracle :=
  ⟨true, 0, 0, 64, 0, ⟨2, 2, 8, false, 3, 0, 0, false⟩, 5, 0, 4096, 0⟩

/-- A decoder run whose fourth `JxlDecoderProcessInput` call returns
`JXL_DEC_ERROR` instead of the expected terminal `JXL_DEC_SUCCESS`. -/
def decodeErrAtFourth : JxlDecoderOracle :=
  ⟨true, 0, 0, 64, 0, ⟨2, 2, 8, false, 3, 0, 0, false⟩, 5, 0, 4096, 1⟩

@[simp] theorem Outcome.check_result {ε T : Type} (cond quiet : Bool) (msg : String)
    (k : Outcome ε T) :
    (Outcome.check cond quiet msg k).result
      = if cond then k.result else StatusOr.err msg := by
  by_cases h : cond <;> simp [Outcome.check, h]

@[simp] theorem Outcome.check_log {ε T : Type} (cond quiet : Bool) (msg : String)
    (k : Outcome ε T) :
    (Outcome.check cond quiet msg k).log
      = if cond then k.log else if quiet then [] else [msg] := by
  by_cases h : cond <;> simp [Outcome.check, h]

@[simp] theorem Outcome.check_trace {ε T : Type} (cond quiet : Bool) (msg : String)
    (k : Outcome ε T) :
    (Outcome.check cond quiet msg k).trace = if cond then k.trace else [] := by
  by_cases h : cond <;> simp [Outcome.check, h]

@[simp] theorem Outcome.event_result {ε T : Type} (e : ε) (k : Outcome ε T) :
    (Outcome.event e k).result = k.result := rfl

@[simp] theorem Outcome.event_log {ε T : Type} (e : ε) (k : Outcome ε T) :
    (Outcome.event e k).log = k.log := rfl

@[simp] theorem Outcome.event_trace {ε T : Type} (e : ε) (k : Outcome ε T) :
    (Outcome.event e k).trace = e :: k.trace := rfl

@[simp] theorem Outcome.events_result {ε T : Type} (es : List ε) (k : Outcome ε T) :
    (Outcome.events es k).result = k.result := rfl

@[simp] theorem Outcome.events_log {ε T : Type} (es : List ε) (k : Outcome ε T) :
    (Outcome.events es k).log = k.log := rfl

@[simp] theorem Outcome.events_trace {ε T : Type} (es : List ε) (k : Outcome ε T) :
    (Outcome.events es k).trace = es ++ k.trace := rfl

@[simp] theorem Outcome.done_result {ε T : Type} (t : T) :
    (@Outcome.done ε T t).result = StatusOr.ok t := rfl

@[simp] theorem Outcome.done_log {ε T : Type} (t : T) :
    (@Outcome.done ε T t).log = [] := rfl

@[simp] theorem Outcome.done_trace {ε T : Type} (t : T) :
    (@Outcome.done ε T t).trace = [] := rfl

/-- C6: `JpegXLLossyQualities` returns a non-empty, strictly increasing
sequence of lossy quality identifiers forming the contiguous integer range
0 through 99, which excludes the lossless sentinel value 100. -/
theorem jpegxl_lossy_qualities_contiguous :
    JpegXLLossyQualities ≠ [] ∧
    List.Pairwise (fun a b => a < b) JpegXLLossyQualities ∧
    (∀ q : Int, q ∈ JpegXLLossyQualities ↔ 0 ≤ q ∧ q ≤ 99) ∧
    kQualityLossless ∉ JpegXLLossyQualities := by
  refine ⟨by decide, by decide, ?_, by decide⟩
  intro q
  simp only [JpegXLLossyQualities, List.mem_map, List.mem_range,
    Int.ofNat_eq_natCast]
  constructor
  · rintro ⟨n, hn, rfl⟩
    omega
  · intro hq
    exact ⟨q.toNat, by omega, by omega⟩

/-- Helper: full characterization of a successful decode run: the result,
the empty quiet-independent log behaviour aside, and the complete native
call trace in order. -/
theorem DecodeJxl_allOk (d : JxlDecoderOracle) (input : TaskInput)
    (encodedSize : Nat) (quiet : Bool) (tcs tcr : ℚ) (hd : d.allOk) :
    DecodeJxl d input encodedSize quiet tcs tcr
      = ⟨StatusOr.ok (decodeOutputImage d.basicInfo, tcr - tcs), [],
         [DecEv.decoderMake,
          DecEv.subscribeEvents (JXL_DEC_BASIC_INFO + JXL_DEC_FULL_IMAGE),
          DecEv.setInput encodedSize, DecEv.closeInput,
          DecEv.processInput JXL_DEC_BASIC_INFO, DecEv.getBasicInfo,
          DecEv.processInput JXL_DEC_NEED_IMAGE_OUT_BUFFER,
          DecEv.imageResize d.basicInfo.xsize d.basicInfo.ysize,
          DecEv.setImageOutBuffer (ArgbBufferSize (decodeOutputImage d.basicInfo)),
          DecEv.processInput JXL_DEC_FULL_IMAGE,
          DecEv.processInput JXL_DEC_SUCCESS]⟩ := by
  obtain ⟨hm, h1, h2, h3, h4, h5, h6, h7, h8⟩ := hd
  simp only [DecodeJxl, hm, h1, h2, h3, h4, h5, h6, h7, h8]
  rfl

/-- C7: when the JPEG XL backend is not compiled in, the `EncodeJxl` and
`DecodeJxl` stubs unconditionally return a failure whose fixed diagnostic
names `HAS_JPEGXL`, making no native call, and `JpegXLVersion` returns
"n/a". -/
theorem no_backend_stubs_fail (input : TaskInput) (image : ArgbBuffer)
    (encodedSize : Nat) (quiet : Bool) (v : Nat) :
    EncodeJxlNoBackend input image quiet
      = ⟨StatusOr.err "Encoding images requires HAS_JPEGXL",
         if quiet then [] else ["Encoding images requires HAS_JPEGXL"], []⟩ ∧
    DecodeJxlNoBackend input encodedSize quiet
      = ⟨StatusOr.err "Decoding images requires HAS_JPEGXL",
         if quiet then [] else ["Decoding images requires HAS_JPEGXL"], []⟩ ∧
    JpegXLVersion false v = "n/a" := by
  refine ⟨?_, ?_, rfl⟩ <;> rfl

/-- C3: for every source image whose pixel format is not RGB 24-bit or
RGBA 32-bit, `EncodeJxl` fails immediately with the diagnostic
"libjxl requires RGB(A)" naming the required format, with an empty native
call trace: no encoder handle is created and the pixel data is never
touched. -/
theorem encode_rejects_unsupported_format (o : JxlEncoderOracle)
    (input : TaskInput) (image : ArgbBuffer) (quiet : Bool)
    (h : image.format ≠ WP2SampleFormat.RGBA32 ∧ image.format ≠ WP2SampleFormat.RGB24) :
    EncodeJxl o input image quiet
      = ⟨StatusOr.err "libjxl requires RGB(A)",
         if quiet then [] else ["libjxl requires RGB(A)"], []⟩ := by
  rcases h with ⟨h1, h2⟩
  have hc : (image.format == WP2SampleFormat.RGBA32
      || image.format == WP2SampleFormat.RGB24) = false := by
    cases hf : image.format <;> simp_all
  simp only [EncodeJxl, hc, Outcome.check, Bool.false_eq_true, if_false]

/-- Witness for C3 at a concrete premultiplied-ARGB image. -/
theorem encode_rejects_unsupported_format_witness :
    EncodeJxl sampleEncOracle sampleTask unsupportedImage false
      = ⟨StatusOr.err "libjxl requires RGB(A)", ["libjxl requires RGB(A)"], []⟩ :=
  encode_rejects_unsupported_format sampleEncOracle sampleTask unsupportedImage
    false (by decide)

/-- C2 (code bug): when the fourth `JxlDecoderProcessInput` call returns an
unexpected event, `DecodeJxl` does fail without proceeding further (the
trace ends at that fourth call), but the diagnostic misidentifies the step
as "Third call", copy-pasted from the previous check
(`src/codec_jpegxl.cc` line 256), so the failure does not report which step
it was. -/
theorem decode_fourth_step_misreported :
    (DecodeJxl decodeErrAtFourth sampleTask 12 false 0 1).result
      = StatusOr.err ("Third call to JxlDecoderProcessInput() failed with "
          ++ "error code 1 when decoding photo.png") ∧
    countProcessInput (DecodeJxl decodeErrAtFourth sampleTask 12 false 0 1).trace
      = 4 ∧
    (DecodeJxl decodeErrAtFourth sampleTask 12 false 0 1).trace
      = [DecEv.decoderMake, DecEv.subscribeEvents 4160, DecEv.setInput 12,
         DecEv.closeInput, DecEv.processInput 64, DecEv.getBasicInfo,
         DecEv.processInput 5, DecEv.imageResize 2 2,
         DecEv.setImageOutBuffer 12, DecEv.processInput 4096,
         DecEv.processInput 1] := by
  refine ⟨by decide, by decide, by decide⟩

/-- Helper: loop invariant of the output-drain loop.  Starting from a
partially filled buffer (`written < size`, `written ≤ N`) with enough fuel,
the loop writes exactly the `N` payload bytes, ends with the encoder's
terminal status, visits at least one buffer size, and every visited buffer
size is either the entry size or, having been obtained by doubling a size
that was still too small, stays below `2 * N`. -/
theorem drainLoop_spec (N finSt : Nat) :
    ∀ fuel size written, written < size → written ≤ N → N - written < fuel →
      (drainLoop N finSt fuel size written).2.1 = N ∧
      (drainLoop N finSt fuel size written).2.2 = finSt ∧
      (drainLoop N finSt fuel size written).1 ≠ [] ∧
      ∀ s ∈ (drainLoop N finSt fuel size written).1, s = size ∨ s < 2 * N := by
  intro fuel
  induction fuel with
  | zero =>
    intro size written h1 h2 h3
    omega
  | succ fuel ih =>
    intro size written h1 h2 h3
    by_cases hw : written + min (size - written) (N - written) < N
    · have hwsize : written + min (size - written) (N - written) = size := by
        omega
      have hsizeN : size < N := by omega
      obtain ⟨ha, hb, hc, hd⟩ := ih (size * 2)
        (written + min (size - written) (N - written)) (by omega) (by omega)
        (by omega)
      simp only [drainLoop, hw, if_true]
      refine ⟨ha, hb, by simp, ?_⟩
      intro s hs
      rcases List.mem_cons.mp hs with hs | hs
      · exact Or.inl hs
      · rcases hd s hs with hs2 | hs2 <;> omega
    · have hwN : written + min (size - written) (N - written) = N := by omega
      simp only [drainLoop, hw, if_false]
      refine ⟨hwN, trivial, by simp, ?_⟩
      intro s hs
      rcases List.mem_cons.mp hs with hs | hs
      · exact Or.inl hs
      · simp at hs

/-- Helper: the drain loop as entered by `EncodeJxl` (64-byte initial
buffer, nothing written, fuel `N + 1`) drains exactly `N` bytes, reports
the encoder's terminal status, and every buffer size it allocates is the
initial 64 bytes or below `2 * N`. -/
theorem encodeDrain_spec (N finSt : Nat) :
    (encodeDrain N finSt).2.1 = N ∧ (encodeDrain N finSt).2.2 = finSt ∧
    (encodeDrain N finSt).1 ≠ [] ∧
    ∀ s ∈ (encodeDrain N finSt).1, s = 64 ∨ s < 2 * N :=
  drainLoop_spec N finSt (N + 1) 64 0 (by omega) (by omega) (by omega)

/-- C1 counterexample: for a 10-byte final payload the loop's only
intermediate buffer is the initial 64-byte allocation, which exceeds twice
the final required size (2 x 10 = 20), even though the buffer is then
truncated to exactly 10 bytes. -/
theorem encode_drain_initial_buffer_exceeds_double_payload :
    64 ∈ (encodeDrain 10 0).1 ∧ (encodeDrain 10 0).2.1 = 10 ∧ 2 * 10 < 64 := by
  decide

/-- C1 (amended): the output-drain loop starts at 64 bytes, doubles on each
need-more-output report resuming at the last unwritten offset, and truncates
to exactly the number of bytes the codec reported writing, which `EncodeJxl`
returns on success; no intermediate buffer length exceeds the larger of the
initial 64-byte allocation and twice the final required size. -/
theorem encode_drain_growth_bound (o : JxlEncoderOracle) (input : TaskInput)
    (image : ArgbBuffer) (quiet : Bool) (s : Nat)
    (hf : image.format = WP2SampleFormat.RGBA32 ∨ image.format = WP2SampleFormat.RGB24)
    (hok : o.allOk)
    (hs : s ∈ (encodeDrain o.payloadSize o.processFinalStatus).1) :
    (EncodeJxl o input image quiet).result = StatusOr.ok o.payloadSize ∧
    (encodeDrain o.payloadSize o.processFinalStatus).2.1 = o.payloadSize ∧
    s ≤ max 64 (2 * o.payloadSize) := by
  obtain ⟨hm, h1, h2, h3, h4, h5, h6, h7, h8⟩ := hok
  have hdr := encodeDrain_spec o.payloadSize 0
  have hfc : (image.format == WP2SampleFormat.RGBA32
      || image.format == WP2SampleFormat.RGB24) = true := by
    rcases hf with hf | hf <;> simp [hf]
  refine ⟨?_, ?_, ?_⟩
  · by_cases hq : input.codec_settings.quality == kQualityLossless <;>
      simp [EncodeJxl, hfc, hm, h1, h2, h3, h4, h5, h6, h7, h8, hq,
        hdr.1, hdr.2.1]
  · rw [h8]
    exact hdr.1
  · rw [h8] at hs
    rcases hdr.2.2.2 s hs with hs2 | hs2 <;> omega

/-- Witness for C1 at a concrete all-success 200-byte encode: the loop
visits buffer sizes 64, 128, 256 and returns exactly 200 bytes. -/
theorem encode_drain_growth_bound_witness :
    (EncodeJxl sampleEncOracle sampleTask sampleImage false).result
      = StatusOr.ok sampleEncOracle.payloadSize ∧
    (encodeDrain sampleEncOracle.payloadSize sampleEncOracle.processFinalStatus).2.1
      = sampleEncOracle.payloadSize ∧
    256 ≤ max 64 (2 * sampleEncOracle.payloadSize) :=
  encode_drain_growth_bound sampleEncOracle sampleTask sampleImage false 256
    (Or.inr rfl) ⟨rfl, rfl, rfl, rfl, rfl, rfl, rfl, rfl, rfl⟩ (by decide)

/-- Helper: a false check on a non-quiet run emits exactly its diagnostic. -/
theorem logFaithful_check {ε T : Type} (cond : Bool) (msg : String)
    (k : Outcome ε T) (h : logFaithful k) :
    logFaithful (Outcome.check cond false msg k) := by
  by_cases hc : cond
  · simpa [logFaithful, Outcome.check, hc] using h
  · simp [logFaithful, Outcome.check, hc, expectedLog]

/-- Helper: recording a native call does not touch the side channel. -/
theorem logFaithful_event {ε T : Type} (e : ε) (k : Outcome ε T)
    (h : logFaithful k) : logFaithful (Outcome.event e k) := h

/-- Helper: recording native calls does not touch the side channel. -/
theorem logFaithful_events {ε T : Type} (es : List ε) (k : Outcome ε T)
    (h : logFaithful k) : logFaithful (Outcome.events es k) := h

/-- Helper: a success emits nothing. -/
theorem logFaithful_done {ε T : Type} (t : T) :
    logFaithful (@Outcome.done ε T t) := rfl

/-- Helper: a non-quiet `EncodeJxl` run is log-faithful. -/
theorem EncodeJxl_logFaithful (o : JxlEncoderOracle) (input : TaskInput)
    (image : ArgbBuffer) :
    logFaithful (EncodeJxl o input image false) := by
  unfold EncodeJxl
  dsimp only
  by_cases hq : input.codec_settings.quality == kQualityLossless
  · rw [if_pos hq]
    repeat
      first
      | exact logFaithful_done _
      | apply logFaithful_check
      | apply logFaithful_event
      | apply logFaithful_events
  · rw [if_neg hq]
    repeat
      first
      | exact logFaithful_done _
      | apply logFaithful_check
      | apply logFaithful_event
      | apply logFaithful_events

/-- Helper: a non-quiet `DecodeJxl` run is log-faithful. -/
theorem DecodeJxl_logFaithful (d : JxlDecoderOracle) (input : TaskInput)
    (encodedSize : Nat) (tcs tcr : ℚ) :
    logFaithful (DecodeJxl d input encodedSize false tcs tcr) := by
  unfold DecodeJxl
  repeat
    first
    | exact logFaithful_done _
    | apply logFaithful_check
    | apply logFaithful_event
    | apply logFaithful_events

/-- C5: for every input the quiet flag changes neither the `StatusOr` result
nor the native-call trace of `EncodeJxl` and `DecodeJxl`; it only controls
the side channel, which is empty when quiet and holds exactly one diagnostic
per failure (and none on success) when not quiet. -/
theorem quiet_flag_noninterference (o : JxlEncoderOracle)
    (d : JxlDecoderOracle) (input : TaskInput) (image : ArgbBuffer)
    (encodedSize : Nat) (tcs tcr : ℚ) :
    ((EncodeJxl o input image true).result
        = (EncodeJxl o input image false).result) ∧
    ((EncodeJxl o input image true).trace
        = (EncodeJxl o input image false).trace) ∧
    (EncodeJxl o input image true).log = [] ∧
    ((EncodeJxl o input image false).log
        = expectedLog (EncodeJxl o input image false).result) ∧
    ((DecodeJxl d input encodedSize true tcs tcr).result
        = (DecodeJxl d input encodedSize false tcs tcr).result) ∧
    ((DecodeJxl d input encodedSize true tcs tcr).trace
        = (DecodeJxl d input encodedSize false tcs tcr).trace) ∧
    (DecodeJxl d input encodedSize true tcs tcr).log = [] ∧
    ((DecodeJxl d input encodedSize false tcs tcr).log
        = expectedLog (DecodeJxl d input encodedSize false tcs tcr).result) := by
  refine ⟨?_, ?_, ?_, EncodeJxl_logFaithful o input image, ?_, ?_, ?_,
    DecodeJxl_logFaithful d input encodedSize tcs tcr⟩
  · by_cases hq : input.codec_settings.quality == kQualityLossless <;>
      simp [EncodeJxl, hq]
  · by_cases hq : input.codec_settings.quality == kQualityLossless <;>
      simp [EncodeJxl, hq]
  · by_cases hq : input.codec_settings.quality == kQualityLossless <;>
      simp [EncodeJxl, hq, ite_self]
  · simp [DecodeJxl]
  · simp [DecodeJxl]
  · simp [DecodeJxl, ite_self]

/-- C4: `EncodeJxl` branches on the task's quality: the lossless sentinel
selects the lossless frame mode (`JxlEncoderSetFrameLossless(JXL_TRUE)`)
and keeps the original color profile (`uses_original_profile`); any other
quality is translated through `JxlEncoderDistanceFromQuality` and applied
via `JxlEncoderSetFrameDistance`; in both branches the task's effort is
passed through unchanged as the `JXL_ENC_FRAME_SETTING_EFFORT` option. -/
theorem encode_quality_branch (o : JxlEncoderOracle) (input : TaskInput)
    (image : ArgbBuffer) (quiet : Bool)
    (hf : image.format = WP2SampleFormat.RGBA32 ∨ image.format = WP2SampleFormat.RGB24)
    (hok : o.allOk) :
    ((mkBasicInfo image input.codec_settings.quality).uses_original_profile
        = (input.codec_settings.quality == kQualityLossless)) ∧
    (input.codec_settings.quality = kQualityLossless →
      EncEv.setFrameLossless true ∈ (EncodeJxl o input image quiet).trace ∧
      ∀ dq, EncEv.setFrameDistance dq ∉ (EncodeJxl o input image quiet).trace) ∧
    (input.codec_settings.quality ≠ kQualityLossless →
      EncEv.setFrameDistance
          (JxlEncoderDistanceFromQuality (input.codec_settings.quality : ℚ))
        ∈ (EncodeJxl o input image quiet).trace ∧
      ∀ b, EncEv.setFrameLossless b ∉ (EncodeJxl o input image quiet).trace) ∧
    EncEv.setOptionEffort input.codec_settings.effort
      ∈ (EncodeJxl o input image quiet).trace := by
  obtain ⟨hm, h1, h2, h3, h4, h5, h6, h7, h8⟩ := hok
  have hfc : (image.format == WP2SampleFormat.RGBA32
      || image.format == WP2SampleFormat.RGB24) = true := by
    rcases hf with hf | hf <;> simp [hf]
  refine ⟨rfl, ?_, ?_, ?_⟩
  · intro hq
    have hq2 : (input.codec_settings.quality == kQualityLossless) = true := by
      simp [hq]
    constructor
    · simp [EncodeJxl, hfc, hm, h1, h2, h3, h4, h5, h6, h7, h8, hq2]
    · intro dq
      simp [EncodeJxl, hfc, hm, h1, h2, h3, h4, h5, h6, h7, h8, hq2]
  · intro hq
    have hq2 : (input.codec_settings.quality == kQualityLossless) = false := by
      simp [hq]
    constructor
    · simp [EncodeJxl, hfc, hm, h1, h2, h3, h4, h5, h6, h7, h8, hq2]
    · intro b
      simp [EncodeJxl, hfc, hm, h1, h2, h3, h4, h5, h6, h7, h8, hq2]
  · by_cases hq2 : input.codec_settings.quality == kQualityLossless <;>
      simp [EncodeJxl, hfc, hm, h1, h2, h3, h4, h5, h6, h7, h8, hq2]

/-- Witness for C4 at a concrete all-success lossless-quality task. -/
theorem encode_quality_branch_witness :
    ((mkBasicInfo sampleImage sampleTask.codec_settings.quality).uses_original_profile
        = (sampleTask.codec_settings.quality == kQualityLossless)) ∧
    (sampleTask.codec_settings.quality = kQualityLossless →
      EncEv.setFrameLossless true
        ∈ (EncodeJxl sampleEncOracle sampleTask sampleImage false).trace ∧
      ∀ dq, EncEv.setFrameDistance dq
        ∉ (EncodeJxl sampleEncOracle sampleTask sampleImage false).trace) ∧
    (sampleTask.codec_settings.quality ≠ kQualityLossless →
      EncEv.setFrameDistance
          (JxlEncoderDistanceFromQuality (sampleTask.codec_settings.quality : ℚ))
        ∈ (EncodeJxl sampleEncOracle sampleTask sampleImage false).trace ∧
      ∀ b, EncEv.setFrameLossless b
        ∉ (EncodeJxl sampleEncOracle sampleTask sampleImage false).trace) ∧
    EncEv.setOptionEffort sampleTask.codec_settings.effort
      ∈ (EncodeJxl sampleEncOracle sampleTask sampleImage false).trace :=
  encode_quality_branch sampleEncOracle sampleTask sampleImage false
    (Or.inr rfl) ⟨rfl, rfl, rfl, rfl, rfl, rfl, rfl, rfl, rfl⟩

/-- C8: `Timer.seconds` is non-negative once the clock has reached the start
instant and is monotone non-decreasing across successive reads of the same
(unmutated) `Timer`; consequently, under a monotonic clock whose successive
instants order the outer decode phase around the inner color-conversion
sub-phase, the sub-phase duration `DecodeJxl` reports on success is ≥ 0 and
fits inside the total decode duration. -/
theorem timer_monotone_and_subphase_contained (t : Timer) (n1 n2 : ℚ)
    (hn1 : t.start ≤ n1) (hn12 : n1 ≤ n2)
    (d : JxlDecoderOracle) (input : TaskInput) (encodedSize : Nat)
    (quiet : Bool) (tTotalStart tcs tcr tTotalEnd : ℚ)
    (hA : tTotalStart ≤ tcs) (hB : tcs ≤ tcr) (hC : tcr ≤ tTotalEnd)
    (hd : d.allOk) :
    0 ≤ t.seconds n1 ∧ t.seconds n1 ≤ t.seconds n2 ∧
    (DecodeJxl d input encodedSize quiet tcs tcr).result
      = StatusOr.ok (decodeOutputImage d.basicInfo,
          Timer.seconds (Timer.mk tcs) tcr) ∧
    0 ≤ Timer.seconds (Timer.mk tcs) tcr ∧
    Timer.seconds (Timer.mk tcs) tcr ≤ tTotalEnd - tTotalStart := by
  refine ⟨?_, ?_, ?_, ?_, ?_⟩
  · simp only [Timer.seconds]
    linarith
  · simp only [Timer.seconds]
    linarith
  · rw [DecodeJxl_allOk d input encodedSize quiet tcs tcr hd]
    rfl
  · simp only [Timer.seconds]
    linarith
  · simp only [Timer.seconds]
    linarith

/-- Witness for C8 at concrete clock instants 5 ≤ 6 ≤ 7 ≤ 8 and a concrete
all-success decode. -/
theorem timer_monotone_and_subphase_contained_witness :
    0 ≤ (Timer.mk (0 : ℚ)).seconds 1 ∧
    (Timer.mk (0 : ℚ)).seconds 1 ≤ (Timer.mk (0 : ℚ)).seconds 2 ∧
    (DecodeJxl sampleDecOracle sampleTask 12 false 6 7).result
      = StatusOr.ok (decodeOutputImage sampleDecOracle.basicInfo,
          Timer.seconds (Timer.mk 6) 7) ∧
    0 ≤ Timer.seconds (Timer.mk (6 : ℚ)) 7 ∧
    Timer.seconds (Timer.mk (6 : ℚ)) 7 ≤ 8 - 5 :=
  timer_monotone_and_subphase_contained (Timer.mk 0) 1 2 (by norm_num)
    (by norm_num) sampleDecOracle sampleTask 12 false 5 6 7 8 (by norm_num)
    (by norm_num) (by norm_num)
    ⟨rfl, rfl, rfl, rfl, rfl, rfl, rfl, rfl, rfl⟩

/-- C9: on a successful decode the returned image is allocated from the
reported basic info: its width and height equal the reported dimensions,
its format is RGBA 32-bit exactly when the reported alpha bit count is
positive and RGB 24-bit otherwise, and its backing storage is handed to
`JxlDecoderSetImageOutBuffer` before the `JxlDecoderProcessInput` call that
returns the full image. -/
theorem decode_allocates_from_basic_info (d : JxlDecoderOracle)
    (input : TaskInput) (encodedSize : Nat) (quiet : Bool) (tcs tcr : ℚ)
    (hd : d.allOk) :
    (DecodeJxl d input encodedSize quiet tcs tcr).result
      = StatusOr.ok (decodeOutputImage d.basicInfo, tcr - tcs) ∧
    (decodeOutputImage d.basicInfo).width = d.basicInfo.xsize ∧
    (decodeOutputImage d.basicInfo).height = d.basicInfo.ysize ∧
    (0 < d.basicInfo.alpha_bits →
      (decodeOutputImage d.basicInfo).format = WP2SampleFormat.RGBA32) ∧
    (¬ 0 < d.basicInfo.alpha_bits →
      (decodeOutputImage d.basicInfo).format = WP2SampleFormat.RGB24) ∧
    ∃ pre post,
      (DecodeJxl d input encodedSize quiet tcs tcr).trace
        = pre ++ DecEv.setImageOutBuffer
            (ArgbBufferSize (decodeOutputImage d.basicInfo)) :: post ∧
      DecEv.processInput JXL_DEC_FULL_IMAGE ∈ post := by
  have hres := DecodeJxl_allOk d input encodedSize quiet tcs tcr hd
  refine ⟨by rw [hres], rfl, rfl, ?_, ?_, ?_⟩
  · intro h
    simp [decodeOutputImage, h]
  · intro h
    simp [decodeOutputImage, h]
  · refine ⟨[DecEv.decoderMake,
      DecEv.subscribeEvents (JXL_DEC_BASIC_INFO + JXL_DEC_FULL_IMAGE),
      DecEv.setInput encodedSize, DecEv.closeInput,
      DecEv.processInput JXL_DEC_BASIC_INFO, DecEv.getBasicInfo,
      DecEv.processInput JXL_DEC_NEED_IMAGE_OUT_BUFFER,
      DecEv.imageResize d.basicInfo.xsize d.basicInfo.ysize],
      [DecEv.processInput JXL_DEC_FULL_IMAGE,
       DecEv.processInput JXL_DEC_SUCCESS], ?_, by simp⟩
    rw [hres]
    rfl

/-- Witness for C9 at a concrete all-success decode of a 2 x 2 opaque
image. -/
theorem decode_allocates_from_basic_info_witness :
    (DecodeJxl sampleDecOracle sampleTask 12 false 0 1).result
      = StatusOr.ok (decodeOutputImage sampleDecOracle.basicInfo, 1 - 0) ∧
    (decodeOutputImage sampleDecOracle.basicInfo).width
      = sampleDecOracle.basicInfo.xsize ∧
    (decodeOutputImage sampleDecOracle.basicInfo).height
      = sampleDecOracle.basicInfo.ysize ∧
    (0 < sampleDecOracle.basicInfo.alpha_bits →
      (decodeOutputImage sampleDecOracle.basicInfo).format
        = WP2SampleFormat.RGBA32) ∧
    (¬ 0 < sampleDecOracle.basicInfo.alpha_bits →
      (decodeOutputImage sampleDecOracle.basicInfo).format
        = WP2SampleFormat.RGB24) ∧
    ∃ pre post,
      (DecodeJxl sampleDecOracle sampleTask 12 false 0 1).trace
        = pre ++ DecEv.setImageOutBuffer
            (ArgbBufferSize (decodeOutputImage sampleDecOracle.basicInfo)) :: post ∧
      DecEv.processInput JXL_DEC_FULL_IMAGE ∈ post :=
  decode_allocates_from_basic_info sampleDecOracle sampleTask 12 false 0 1
    ⟨rfl, rfl, rfl, rfl, rfl, rfl, rfl, rfl, rfl⟩

/-- C10: the byte count the adapter passes to the native library — to
`JxlEncoderAddImageFrame` in `EncodeJxl` and to
`JxlDecoderSetImageOutBuffer` in `DecodeJxl` — is `ArgbBufferSize` of the
respective image, which equals exactly
`(height - 1) * stride + width * bytes-per-pixel`, the minimal length
satisfying the image-buffer invariant: the stride padding of the last row
is not included. -/
theorem argb_buffer_size_minimal (image : ArgbBuffer) (h1 : 1 ≤ image.height)
    (h2 : image.height < 4294967296) (hstr : image.stride < 4294967296)
    (hinv : image.width * WP2FormatBpp image.format ≤ image.stride)
    (o : JxlEncoderOracle) (input : TaskInput) (quiet : Bool)
    (hf : image.format = WP2SampleFormat.RGBA32 ∨ image.format = WP2SampleFormat.RGB24)
    (hok : o.allOk) (d : JxlDecoderOracle) (hd : d.allOk) (encodedSize : Nat)
    (tcs tcr : ℚ) :
    (ArgbBufferSize image
      = (image.height - 1) * image.stride
        + image.width * WP2FormatBpp image.format) ∧
    bufferLengthInvariant image (ArgbBufferSize image) ∧
    (∀ n, bufferLengthInvariant image n → ArgbBufferSize image ≤ n) ∧
    EncEv.addImageFrame (ArgbBufferSize image)
      ∈ (EncodeJxl o input image quiet).trace ∧
    DecEv.setImageOutBuffer (ArgbBufferSize (decodeOutputImage d.basicInfo))
      ∈ (DecodeJxl d input encodedSize quiet tcs tcr).trace := by
  have hmodh : (image.height + 4294967295) % 4294967296 = image.height - 1 := by
    omega
  have hh : image.height - 1 + 1 = image.height := by omega
  have hsum : (image.height - 1) * image.stride
      + image.width * WP2FormatBpp image.format
      ≤ image.height * image.stride := by
    calc (image.height - 1) * image.stride
          + image.width * WP2FormatBpp image.format
        ≤ (image.height - 1) * image.stride + image.stride :=
          Nat.add_le_add_left hinv _
      _ = (image.height - 1 + 1) * image.stride := by ring
      _ = image.height * image.stride := by rw [hh]
  have hp : image.height * image.stride ≤ 4294967295 * 4294967295 :=
    Nat.mul_le_mul (by omega) (by omega)
  have hlt : (image.height - 1) * image.stride
      + image.width * WP2FormatBpp image.format < 18446744073709551616 := by
    linarith
  have hform : ArgbBufferSize image
      = (image.height - 1) * image.stride
        + image.width * WP2FormatBpp image.format := by
    rw [ArgbBufferSize, hmodh, Nat.mod_eq_of_lt hlt]
  obtain ⟨hm, he1, he2, he3, he4, he5, he6, he7, he8⟩ := hok
  have hfc : (image.format == WP2SampleFormat.RGBA32
      || image.format == WP2SampleFormat.RGB24) = true := by
    rcases hf with hf | hf <;> simp [hf]
  refine ⟨hform, ?_, ?_, ?_, ?_⟩
  · rw [bufferLengthInvariant, hform]
  · intro n hn
    rw [hform]
    exact hn
  · by_cases hq : input.codec_settings.quality == kQualityLossless <;>
      simp [EncodeJxl, hfc, hm, he1, he2, he3, he4, he5, he6, he7, he8, hq]
  · rw [DecodeJxl_allOk d input encodedSize quiet tcs tcr hd]
    simp

/-- Witness for C10 at the concrete 2 x 2 RGB image with a tight stride and
concrete all-success encode and decode runs. -/
theorem argb_buffer_size_minimal_witness :
    (ArgbBufferSize sampleImage
      = (sampleImage.height - 1) * sampleImage.stride
        + sampleImage.width * WP2FormatBpp sampleImage.format) ∧
    bufferLengthInvariant sampleImage (ArgbBufferSize sampleImage) ∧
    (∀ n, bufferLengthInvariant sampleImage n → ArgbBufferSize sampleImage ≤ n) ∧
    EncEv.addImageFrame (ArgbBufferSize sampleImage)
      ∈ (EncodeJxl sampleEncOracle sampleTask sampleImage false).trace ∧
    DecEv.setImageOutBuffer
        (ArgbBufferSize (decodeOutputImage sampleDecOracle.basicInfo))
      ∈ (DecodeJxl sampleDecOracle sampleTask 12 false 0 1).trace :=
  argb_buffer_size_minimal sampleImage (by decide) (by decide) (by decide)
    (by decide) sampleEncOracle sampleTask false (Or.inr rfl)
    ⟨rfl, rfl, rfl, rfl, rfl, rfl, rfl, rfl, rfl⟩ sampleDecOracle
    ⟨rfl, rfl, rfl, rfl, rfl, rfl, rfl, rfl, rfl⟩ 12 0 1
